import Mathlib

/-!
# A shallow embedding of `app.py`

`app.py` is a FastAPI service over a single pandas `DataFrame` loaded once at
startup (`df = pd.read_csv('data/df_co2_countrys.csv')`, falling back to the
column-less `pd.DataFrame()` when the load fails).  Every endpoint is a pure
function of that frame and its query parameters, so the service embeds as
functions over an explicit `Store` value.

Conventions of the embedding:
* machine data: `year` is an `Int` (int64 years never overflow here), `value`
  is a CSV float on which the service performs no arithmetic, modelled as an
  exact `Rat`;
* `df[c]` on a missing column raises `KeyError` (HTTP 500 at request time);
  this is the `Err.keyError` branch, threaded with `Except`;
* `HTTPException(status_code=404, detail=d)` is `Err.httpNotFound d`;
* Python truthiness of optional parameters (`if year:` / `if country:`) is
  modelled exactly: `None`, `0` and `""` are falsy;
* `Series.str.lower` is per-character lowering (`pyLower`; the datasets are
  ASCII, and both sides of every comparison are lowered by the same function,
  so the claims below are insensitive to the difference on non-ASCII
  letters).
-/

/-- One emissions record (the `CO2Data` pydantic model of `app.py`): the six
fixed columns of the dataset. -/
structure Row where
  country : String
  year : Int
  commodity : String
  parent_entity : String
  parent_type : String
  value : Rat
deriving DecidableEq, Repr

instance : Inhabited Row := ⟨⟨"", 0, "", "", "", 0⟩⟩

/-- The module-level pandas `DataFrame` `df`.  A successful
`pd.read_csv('data/df_co2_countrys.csv')` yields the six fixed columns; the
load-failure fallback `pd.DataFrame()` has no columns at all, which is why the
column list is part of the state. -/
structure Store where
  cols : List String
  rows : List Row
deriving DecidableEq, Repr

/-- The six column names of the dataset, in header order. -/
def fixedCols : List String :=
  ["country", "year", "commodity", "parent_entity", "parent_type", "value"]

/-- A store produced by a successful CSV load. -/
def Store.ofRows (rows : List Row) : Store := ⟨fixedCols, rows⟩

/-- The load-failure fallback `df = pd.DataFrame()`: no rows and no columns. -/
def emptyStore : Store := ⟨[], []⟩

/-- Faults observable at request time: `keyError c` models the pandas
`KeyError` raised by `df[c]` when column `c` is absent (surfaced as HTTP 500);
`httpNotFound d` models `HTTPException(status_code=404, detail=d)`. -/
inductive Err where
  | keyError (col : String)
  | httpNotFound (detail : String)
deriving DecidableEq, Repr

deriving instance DecidableEq for Except

/-- `df[c]`: raises `KeyError` when the column is missing, otherwise a no-op
for the purposes of the embedding (the column's values are read straight off
the rows). -/
def Store.requireCol (s : Store) (c : String) : Except Err Unit :=
  if c ∈ s.cols then .ok () else .error (.keyError c)

/-- Python truthiness of an `Optional[int]` (`if year:`): `None` and `0` are
falsy, every other integer is truthy. -/
def intTruthy : Option Int → Bool
  | none => false
  | some y => y != 0

/-- Python truthiness of an `Optional[str]` (`if country:`): `None` and `""`
are falsy. -/
def strTruthy : Option String → Bool
  | none => false
  | some c => !c.isEmpty

/-- Python `str.lower()` / pandas `Series.str.lower()`: per-character
lowering (the datasets are ASCII; both sides of every comparison below are
lowered by this same function).  Defined over the character list so that it
reduces inside the kernel. -/
def pyLower (s : String) : String := ⟨s.data.map Char.toLower⟩

/-- Helper for `uniqueFirst`: keep elements not seen before. -/
def uniqueFirstAux [BEq α] (seen : List α) : List α → List α
  | [] => []
  | x :: xs =>
    if seen.contains x then uniqueFirstAux seen xs
    else x :: uniqueFirstAux (x :: seen) xs

/-- pandas `Series.unique`: the distinct values in first-occurrence order. -/
def uniqueFirst [BEq α] (xs : List α) : List α := uniqueFirstAux [] xs

/-- `GET /countries/` (`get_countries`):
`df['country'].unique().tolist()`. -/
def get_countries (s : Store) : Except Err (List String) := do
  s.requireCol "country"
  return uniqueFirst (s.rows.map (·.country))

/-- The row predicate built by `get_country_data`:
`df['country'].str.lower() == country_name.lower()`, conjoined with
`df['year'] == year` only when `year` is truthy. -/
def countryQuery (country_name : String) (year : Option Int) : Row → Bool :=
  let base : Row → Bool := fun r => pyLower r.country == pyLower country_name
  if intTruthy year then fun r => base r && r.year == year.getD 0 else base

/-- `GET /country/{country_name}` (`get_country_data`): case-insensitive
country match, year filter applied only when `year` is truthy, 404 when the
filtered frame is empty. -/
def get_country_data (s : Store) (country_name : String) (year : Option Int) :
    Except Err (List Row) := do
  s.requireCol "country"
  if intTruthy year then s.requireCol "year"
  let country_data := s.rows.filter (countryQuery country_name year)
  if country_data.isEmpty then
    .error (.httpNotFound ("No se encontraron datos para el país: " ++ country_name))
  else
    .ok country_data

/-- The row predicate built by `get_co2_data`: `df['year'] == year`,
conjoined with the case-insensitive country match only when `country` is
truthy. -/
def co2Query (year : Int) (country : Option String) : Row → Bool :=
  let base : Row → Bool := fun r => r.year == year
  if strTruthy country then
    fun r => base r && pyLower r.country == pyLower (country.getD "")
  else base

/-- `GET /co2_data/` (`get_co2_data`): required year, optional country (the
country filter is applied only when `country` is truthy, i.e. present and
non-empty). -/
def get_co2_data (s : Store) (year : Int) (country : Option String) :
    Except Err (List Row) := do
  s.requireCol "year"
  if strTruthy country then s.requireCol "country"
  let data := s.rows.filter (co2Query year country)
  if data.isEmpty then
    .error (.httpNotFound ("No se encontraron datos para el año " ++ toString year ++
      (if strTruthy country then " y país " ++ country.getD "" else "")))
  else
    .ok data

/-- A scalar sitting in one column of the frame (the columns have mixed
types: strings, the int64 year, the float value). -/
inductive ColVal where
  | str (v : String)
  | int (v : Int)
  | num (v : Rat)
deriving DecidableEq, Repr

/-- The full (not yet deduplicated) contents of column `c`, in row order. -/
def colContents (s : Store) (c : String) : List ColVal :=
  if c == "country" then s.rows.map (fun r => .str r.country)
  else if c == "year" then s.rows.map (fun r => .int r.year)
  else if c == "commodity" then s.rows.map (fun r => .str r.commodity)
  else if c == "parent_entity" then s.rows.map (fun r => .str r.parent_entity)
  else if c == "parent_type" then s.rows.map (fun r => .str r.parent_type)
  else if c == "value" then s.rows.map (fun r => .num r.value)
  else []

/-- `GET /column/{column_name}` (`get_column_data`): 404 listing the frame's
columns when the name is unknown, otherwise the distinct values of the column
(rows carry no missing values in the model, so `dropna()` is the
identity).  The response dict `{column_name: values}` is the pair. -/
def get_column_data (s : Store) (column_name : String) :
    Except Err (String × List ColVal) :=
  if column_name ∉ s.cols then
    .error (.httpNotFound ("Columna no encontrada. Columnas disponibles: " ++
      String.intercalate ", " s.cols))
  else
    .ok (column_name, uniqueFirst (colContents s column_name))

/-- The row predicate built by `get_commodity_data`. -/
def commodityQuery (commodity_name : String) (year : Option Int) : Row → Bool :=
  let base : Row → Bool := fun r => pyLower r.commodity == pyLower commodity_name
  if intTruthy year then fun r => base r && r.year == year.getD 0 else base

/-- `GET /commodity/{commodity_name}` (`get_commodity_data`). -/
def get_commodity_data (s : Store) (commodity_name : String) (year : Option Int) :
    Except Err (List Row) := do
  s.requireCol "commodity"
  if intTruthy year then s.requireCol "year"
  let commodity_data := s.rows.filter (commodityQuery commodity_name year)
  if commodity_data.isEmpty then
    .error (.httpNotFound ("No se encontraron datos para el commodity: " ++ commodity_name))
  else
    .ok commodity_data

/-- The response of `GET /statistics/summary`.  `year_min`/`year_max` are
`none` on a store with no rows (pandas `Series.min()` of an empty column is
`NaN`). -/
structure Summary where
  total_countries : Nat
  year_min : Option Int
  year_max : Option Int
  total_records : Nat
  commodities : List String
  entity_types : List String
deriving DecidableEq, Repr

/-- `GET /statistics/summary` (`get_statistics_summary`).  The response dict
evaluates `df['country']`, `df['year']`, `df['commodity']` and
`df['parent_type']` in that order, so on the column-less fallback frame the
first access raises `KeyError('country')`. -/
def get_statistics_summary (s : Store) : Except Err Summary := do
  s.requireCol "country"
  s.requireCol "year"
  s.requireCol "commodity"
  s.requireCol "parent_type"
  return {
    total_countries := (uniqueFirst (s.rows.map (·.country))).length
    year_min := (s.rows.map (·.year)).min?
    year_max := (s.rows.map (·.year)).max?
    total_records := s.rows.length
    commodities := uniqueFirst (s.rows.map (·.commodity))
    entity_types := uniqueFirst (s.rows.map (·.parent_type)) }

/-- The row predicate built by `get_entity_data`. -/
def entityQuery (entity_name : String) (year : Option Int) : Row → Bool :=
  let base : Row → Bool := fun r => pyLower r.parent_entity == pyLower entity_name
  if intTruthy year then fun r => base r && r.year == year.getD 0 else base

/-- `GET /entity/{entity_name}` (`get_entity_data`). -/
def get_entity_data (s : Store) (entity_name : String) (year : Option Int) :
    Except Err (List Row) := do
  s.requireCol "parent_entity"
  if intTruthy year then s.requireCol "year"
  let entity_data := s.rows.filter (entityQuery entity_name year)
  if entity_data.isEmpty then
    .error (.httpNotFound ("No se encontraron datos para la entidad: " ++ entity_name))
  else
    .ok entity_data

/-- The row predicate built by `get_entity_type_data`. -/
def entityTypeQuery (entity_type : String) (year : Option Int) : Row → Bool :=
  let base : Row → Bool := fun r => pyLower r.parent_type == pyLower entity_type
  if intTruthy year then fun r => base r && r.year == year.getD 0 else base

/-- `GET /entity_type/{entity_type}` (`get_entity_type_data`). -/
def get_entity_type_data (s : Store) (entity_type : String) (year : Option Int) :
    Except Err (List Row) := do
  s.requireCol "parent_type"
  if intTruthy year then s.requireCol "year"
  let entity_type_data := s.rows.filter (entityTypeQuery entity_type year)
  if entity_type_data.isEmpty then
    .error (.httpNotFound ("No se encontraron datos para el tipo de entidad: " ++ entity_type))
  else
    .ok entity_type_data

/-- The row predicate built by `compare_countries`:
`df['country'].str.lower().isin([c.lower() for c in countries])`, conjoined
with `df['year'] == year` only when `year` is truthy. -/
def compareQuery (countries : List String) (year : Option Int) : Row → Bool :=
  let lowered := countries.map pyLower
  let base : Row → Bool := fun r => lowered.contains (pyLower r.country)
  if intTruthy year then fun r => base r && r.year == year.getD 0 else base

/-- `GET /compare_countries/` (`compare_countries`):
`df['country'].str.lower().isin([c.lower() for c in countries])`, optional
truthy year filter, generic 404 detail. -/
def compare_countries (s : Store) (countries : List String) (year : Option Int) :
    Except Err (List Row) := do
  s.requireCol "country"
  if intTruthy year then s.requireCol "year"
  let comparison_data := s.rows.filter (compareQuery countries year)
  if comparison_data.isEmpty then
    .error (.httpNotFound "No se encontraron datos para los países especificados")
  else
    .ok comparison_data

/-!
### pandas `sort_values('year')`

`GET /trends/{country}` evaluates `df[query].sort_values('year')`.
`DataFrame.sort_values` on a single key with the default `kind='quicksort'`
computes `nargsort(values, kind='quicksort')` — the year column holds no NaNs
in the model, so this is exactly `values.argsort(kind='quicksort')` — and
takes the rows in that index order.  numpy's `argsort(kind='quicksort')` is
the introsort `aquicksort` of `npysort/quicksort.c.src`: median-of-3
quicksort permuting an index array, falling through to insertion sort on
segments of at most 16 positions (`SMALL_QUICKSORT = 15`), and switching to
`aheapsort` (`npysort/heapsort.c.src`) once the shared depth budget
`2 * floor(log2 n)` is spent.  It is *not* a stable sort.  The functions
below transcribe those two C routines over a `List Nat` index array `t` and a
fixed key array `v`; out-of-range reads are `getD _ 0` and out-of-range
writes are `List.set` no-ops, which is observationally identical to the C on
every execution the service can reach (the scans below stay inside the
segment thanks to the pivot sentinel and the median-of-3 bounds).
-/

/-- `do ++pi; while (v[tosort[pi]] < vp);` — advance the left scan.  The C
loop has no bounds check and no counter: the `i + 1 < t.length` guard and the
`n` counter (always instantiated with `t.length`, which the guard makes an
upper bound on the number of iterations) only make the function total, and
never bind on reachable executions, where the pivot copy at `pr - 1` stops
the scan inside the segment. -/
def scanHi (v : List Int) (t : List Nat) (vp : Int) : Nat → Nat → Nat
  | i, 0 => i + 1
  | i, n + 1 =>
    if i + 1 < t.length ∧ v.getD (t.getD (i + 1) 0) 0 < vp then
      scanHi v t vp (i + 1) n
    else i + 1

/-- `do --pj; while (vp < v[tosort[pj]]);` — advance the right scan.  `j`
decreases strictly, so the recursion is structural; on reachable executions
the median-of-3 element at `pl` stops the scan at or before `pl`. -/
def scanLo (v : List Int) (t : List Nat) (vp : Int) : Nat → Nat
  | 0 => 0
  | j + 1 => if vp < v.getD (t.getD j 0) 0 then scanLo v t vp j else j

/-- Swap two positions of the index array (`INTP_SWAP(*a, *b)`). -/
def tswap (t : List Nat) (i j : Nat) : List Nat :=
  let x := t.getD i 0
  let y := t.getD j 0
  (t.set i y).set j x

/-- The inner partition loop of `aquicksort`: scan, swap, repeat until the
pointers cross; returns the array and the crossing position.  The C loop has
no counter; `j` decreases strictly on every pass (`scanLo_le`) and the loop
exits as soon as the scans cross, so instantiating the counter with the
initial `j` (as `partitionSeg` does) never binds. -/
def partLoop (v : List Int) (vp : Int) : List Nat → Nat → Nat → Nat → List Nat × Nat
  | t, i, _, 0 => (t, i)
  | t, i, j, n + 1 =>
    let i' := scanHi v t vp i t.length
    let j' := scanLo v t vp j
    if i' ≥ j' then (t, i')
    else partLoop v vp (tswap t i' j') i' j' n

/-- One full partition step on the segment `[pl, pr]`: median-of-3 of
`pl, pm, pr`, pivot parked at `pr - 1`, scan loop, pivot swapped to the
crossing position.  Returns the array and the pivot position. -/
def partitionSeg (v : List Int) (t : List Nat) (pl pr : Nat) : List Nat × Nat :=
  let pm := pl + (pr - pl) / 2
  let t := if v.getD (t.getD pm 0) 0 < v.getD (t.getD pl 0) 0 then tswap t pm pl else t
  let t := if v.getD (t.getD pr 0) 0 < v.getD (t.getD pm 0) 0 then tswap t pr pm else t
  let t := if v.getD (t.getD pm 0) 0 < v.getD (t.getD pl 0) 0 then tswap t pm pl else t
  let vp := v.getD (t.getD pm 0) 0
  let t := tswap t pm (pr - 1)
  let p := partLoop v vp t pl (pr - 1) (pr - 1)
  (tswap p.1 p.2 (pr - 1), p.2)

/-- 1-based heap read: `a[k]` with `a = tosort + off - 1`. -/
def hGet (t : List Nat) (off k : Nat) : Nat := t.getD (off + k - 1) 0

/-- 1-based heap write. -/
def hSet (t : List Nat) (off k x : Nat) : List Nat := t.set (off + k - 1) x

/-- The sift-down loop shared by both phases of `aheapsort`.  The C loop has
no counter; `j` at least doubles per iteration from at least `2`, so the
`n + 1` units its callers pass are never exhausted. -/
def siftLoop (v : List Int) (t : List Nat) (off n tmp i j : Nat) :
    Nat → List Nat × Nat
  | 0 => (t, i)
  | fuel + 1 =>
    if j ≤ n then
      let j := if j < n ∧ v.getD (hGet t off j) 0 < v.getD (hGet t off (j + 1)) 0
        then j + 1 else j
      if v.getD tmp 0 < v.getD (hGet t off j) 0 then
        siftLoop v (hSet t off i (hGet t off j)) off n tmp j (2 * j) fuel
      else (t, i)
    else (t, i)

/-- The heapify phase of `aheapsort`: `for (l = n >> 1; l > 0; --l)`. -/
def heapBuild (v : List Int) (off n : Nat) : List Nat → Nat → List Nat
  | t, 0 => t
  | t, l + 1 =>
    let tmp := hGet t off (l + 1)
    let p := siftLoop v t off n tmp (l + 1) (2 * (l + 1)) (n + 1)
    heapBuild v off n (hSet p.1 off p.2 tmp) l

/-- The extraction phase of `aheapsort`: `for (; n > 1;)`. -/
def heapExtract (v : List Int) (off : Nat) : List Nat → Nat → List Nat
  | t, 0 => t
  | t, 1 => t
  | t, n + 2 =>
    let tmp := hGet t off (n + 2)
    let t := hSet t off (n + 2) (hGet t off 1)
    let p := siftLoop v t off (n + 1) tmp 1 2 (n + 2)
    heapExtract v off (hSet p.1 off p.2 tmp) (n + 1)

/-- `aheapsort(vv, pl, pr - pl + 1)`: heapsort of the index segment of length
`n` starting at `off`. -/
def aheapsort (v : List Int) (t : List Nat) (off n : Nat) : List Nat :=
  heapExtract v off (heapBuild v off n t (n / 2)) n

/-- The shift loop of the final insertion sort:
`while (pj > pl && vp < v[*pk]) { *pj-- = *pk--; }`.  Returns the array and
the insertion position `pj`; the recursion is structural in `pj`. -/
def insShift (v : List Int) (pl : Nat) (vp : Int) : List Nat → Nat → List Nat × Nat
  | t, 0 => (t, 0)
  | t, pj + 1 =>
    if pj + 1 > pl ∧ vp < v.getD (t.getD pj 0) 0 then
      insShift v pl vp (t.set (pj + 1) (t.getD pj 0)) pj
    else (t, pj + 1)

/-- The insertion-sort pass over the segment `[pl, pr]`
(`for (pi = pl + 1; pi <= pr; ++pi)`), structurally recursive on the count
`pr + 1 - pi` of remaining iterations. -/
def insLoop (v : List Int) (pl : Nat) : List Nat → Nat → Nat → List Nat
  | t, _, 0 => t
  | t, pi, count + 1 =>
    let vi := t.getD pi 0
    let p := insShift v pl (v.getD vi 0) t pi
    insLoop v pl (p.1.set p.2 vi) (pi + 1) count

/-- Insertion sort of the segment `[pl, pr]` of the index array. -/
def insSortSeg (v : List Int) (t : List Nat) (pl pr : Nat) : List Nat :=
  insLoop v pl t (pl + 1) (pr - pl)

/-- The outer loop of `aquicksort`: the current segment is `[pl, pr]`, the
pending larger halves sit on `stk`, and `depth` is the shared remaining
introsort depth budget (post-decremented on every partition attempt; heapsort
takes over once it has gone negative).  The C loop has no counter; writing
`size s` for `r + 1 - l`, the quantity
`2 * (size of the current segment + sizes of the stacked segments) + number
of stacked segments` decreases strictly at every pass (a partition splits a
segment into two halves jointly one position smaller, the other branches pop
a segment), so the `2 * n + 1` units `argsortQuick` passes are never
exhausted. -/
def introMain (v : List Int) : List Nat → Nat → Nat → List (Nat × Nat) → Int → Nat → List Nat
  | t, _, _, _, _, 0 => t
  | t, pl, pr, stk, depth, fuel + 1 =>
    if pr - pl > 15 then
      if depth < 0 then
        let t' := aheapsort v t pl (pr - pl + 1)
        match stk with
        | [] => t'
        | (l, r) :: rest => introMain v t' l r rest (depth - 1) fuel
      else
        let p := partitionSeg v t pl pr
        if p.2 - pl < pr - p.2 then
          introMain v p.1 pl (p.2 - 1) ((p.2 + 1, pr) :: stk) (depth - 1) fuel
        else
          introMain v p.1 (p.2 + 1) pr ((pl, p.2 - 1) :: stk) (depth - 1) fuel
    else
      let t' := insSortSeg v t pl pr
      match stk with
      | [] => t'
      | (l, r) :: rest => introMain v t' l r rest depth fuel

/-- `np.argsort(v, kind='quicksort')`: numpy's `aquicksort` on the index
array `[0, …, n-1]` with depth budget `npy_get_msb(n) * 2`. -/
def argsortQuick (v : List Int) : List Nat :=
  if v.length = 0 then []
  else
    introMain v (List.range v.length) 0 (v.length - 1) []
      (2 * Nat.log2 v.length) (2 * v.length + 1)

/-- pandas `DataFrame.sort_values('year')` with the default
`kind='quicksort'`: take the rows in `argsort` order of the year column. -/
def sort_values_year (rows : List Row) : List Row :=
  (argsortQuick (rows.map (·.year))).map (fun i => rows.getD i default)

/-- The row predicate built by `get_trends`: case-insensitive country match,
conjoined with `df['year'] >= start_year` only when `start_year` is truthy
and with `df['year'] <= end_year` only when `end_year` is truthy. -/
def trendsQuery (country : String) (start_year end_year : Option Int) : Row → Bool :=
  let base : Row → Bool := fun r => pyLower r.country == pyLower country
  let q1 : Row → Bool :=
    if intTruthy start_year then
      fun r => base r && decide (start_year.getD 0 ≤ r.year)
    else base
  if intTruthy end_year then
    fun r => q1 r && decide (r.year ≤ end_year.getD 0)
  else q1

/-- `GET /trends/{country}` (`get_trends`): case-insensitive country match,
truthy-guarded year bounds, `sort_values('year')`, 404 when empty. -/
def get_trends (s : Store) (country : String) (start_year end_year : Option Int) :
    Except Err (List Row) := do
  s.requireCol "country"
  if intTruthy start_year then s.requireCol "year"
  if intTruthy end_year then s.requireCol "year"
  let trend_data := sort_values_year (s.rows.filter (trendsQuery country start_year end_year))
  if trend_data.isEmpty then
    .error (.httpNotFound ("No se encontraron datos para el país: " ++ country))
  else
    .ok trend_data

/-- The row list carried by a successful response; an error response carries
no rows. -/
def resultRows (e : Except Err (List Row)) : List Row :=
  match e with
  | .ok l => l
  | .error _ => []

/-!
## Specification-side definitions

Everything above is transcribed from `app.py` (and the numpy routines it
invokes through `sort_values`).  The definitions below do not model code:
they are vocabulary for stating properties — concrete stores used as test
inputs, and predicates used by the theorems.
-/

/-- Spec scenario row `("USA", 2000, "Oil", "X", "State", 10.0)`. -/
def usa2000 : Row := ⟨"USA", 2000, "Oil", "X", "State", 10⟩

/-- Spec scenario row `("USA", 2001, "Oil", "X", "State", 12.0)`. -/
def usa2001 : Row := ⟨"USA", 2001, "Oil", "X", "State", 12⟩

/-- Spec scenario row `("Chile", 2000, "Coal", "Y", "Company", 5.0)`. -/
def chile2000 : Row := ⟨"Chile", 2000, "Coal", "Y", "Company", 5⟩

/-- The spec's concrete three-row scenario store. -/
def sampleStore : Store := Store.ofRows [usa2000, usa2001, chile2000]

/-- A row of country `"X"` with year `0`. -/
def xRow0 : Row := ⟨"X", 0, "Oil", "E", "State", 1⟩

/-- A row of country `"X"` with year `5`. -/
def xRow5 : Row := ⟨"X", 5, "Oil", "E", "State", 2⟩

/-- A row of country `"X"` with year `-3`. -/
def xRowNeg : Row := ⟨"X", -3, "Oil", "E", "State", 3⟩

/-- A store holding one year-`0` and one year-`5` row of the same country. -/
def zeroYearStore : Store := Store.ofRows [xRow0, xRow5]

/-- A store holding one year-`-3` and one year-`5` row of the same country. -/
def negYearStore : Store := Store.ofRows [xRowNeg, xRow5]

/-- The `i`-th of seventeen rows sharing country `"X"` and year `2000` but
pairwise distinct in `parent_entity`. -/
def tieRow (i : Nat) : Row := ⟨"X", 2000, "Oil", "E" ++ toString i, "State", 0⟩

/-- Seventeen equal-year rows of one country: the smallest store on which
`sort_values('year')` leaves the insertion-sort regime. -/
def tieStore : Store := Store.ofRows ((List.range 17).map tieRow)

/-- The index order in which numpy's `aquicksort` returns seventeen
equal-keyed elements. -/
def tiePerm : List Nat := [0, 14, 13, 12, 11, 10, 9, 15, 8, 6, 5, 4, 3, 2, 1, 7, 16]

/-- Two country lists denote the same query iff they have the same set of
lower-cased names (the code only uses `[c.lower() for c in countries]`
through `isin`). -/
def sameLoweredSet (L1 L2 : List String) : Bool :=
  (L1.map pyLower).all (fun c => (L2.map pyLower).contains c) &&
  (L2.map pyLower).all (fun c => (L1.map pyLower).contains c)

/-- `needle` occurs as a prefix of `hay` (over character lists). -/
def charsPrefix : List Char → List Char → Bool
  | [], _ => true
  | _ :: _, [] => false
  | a :: as, b :: bs => a == b && charsPrefix as bs

/-- `needle` occurs contiguously somewhere in `hay` (over character lists). -/
def charsSub (needle : List Char) : List Char → Bool
  | [] => charsPrefix needle []
  | c :: cs => charsPrefix needle (c :: cs) || charsSub needle cs

/-- `needle` is a substring of `hay`: the sense in which an error detail can
be said to mention a filter value. -/
def strContains (hay needle : String) : Bool := charsSub needle.data hay.data

/-- Strict lexicographic order on index positions by `(key value, index)`:
position `a` strictly precedes `b` when its key is smaller, or the keys are
equal and `a` comes first.  A list of positions that is `Pairwise (yearLexLt
v)` is exactly a stably `v`-sorted list of positions. -/
def yearLexLt (v : List Int) (a b : Nat) : Prop :=
  v.getD a 0 < v.getD b 0 ∨ (v.getD a 0 = v.getD b 0 ∧ a < b)

/-- Insert position `x` into a position list, after every position whose key
is at most `x`'s key and before the first strictly larger one — the list
counterpart of one pass of the C insertion sort. -/
def insVal (v : List Int) (x : Nat) : List Nat → List Nat
  | [] => [x]
  | y :: ys => if v.getD y 0 ≤ v.getD x 0 then y :: insVal v x ys else x :: y :: ys

/-!
## Contract lemmas

Each endpoint, evaluated on a successfully loaded store (`Store.ofRows`),
reduces to its filter-then-classify contract: the column accesses succeed,
and the response is the 404 carrying the endpoint's fixed detail when the
filtered sequence is empty, and the filtered sequence itself otherwise.
-/

theorem get_countries_ofRows (rows : List Row) :
    get_countries (Store.ofRows rows) = .ok (uniqueFirst (rows.map (·.country))) := rfl

theorem get_statistics_summary_ofRows (rows : List Row) :
    get_statistics_summary (Store.ofRows rows) = .ok {
      total_countries := (uniqueFirst (rows.map (·.country))).length
      year_min := (rows.map (·.year)).min?
      year_max := (rows.map (·.year)).max?
      total_records := rows.length
      commodities := uniqueFirst (rows.map (·.commodity))
      entity_types := uniqueFirst (rows.map (·.parent_type)) } := rfl

theorem get_country_data_ofRows (rows : List Row) (n : String) (y : Option Int) :
    get_country_data (Store.ofRows rows) n y =
      if (rows.filter (countryQuery n y)).isEmpty then
        .error (.httpNotFound ("No se encontraron datos para el país: " ++ n))
      else .ok (rows.filter (countryQuery n y)) := by
  cases hy : intTruthy y <;> simp only [get_country_data, hy] <;> rfl

theorem get_co2_data_ofRows (rows : List Row) (y : Int) (c : Option String) :
    get_co2_data (Store.ofRows rows) y c =
      if (rows.filter (co2Query y c)).isEmpty then
        .error (.httpNotFound ("No se encontraron datos para el año " ++ toString y ++
          (if strTruthy c then " y país " ++ c.getD "" else "")))
      else .ok (rows.filter (co2Query y c)) := by
  cases hc : strTruthy c <;> simp only [get_co2_data, hc] <;> rfl

theorem get_commodity_data_ofRows (rows : List Row) (n : String) (y : Option Int) :
    get_commodity_data (Store.ofRows rows) n y =
      if (rows.filter (commodityQuery n y)).isEmpty then
        .error (.httpNotFound ("No se encontraron datos para el commodity: " ++ n))
      else .ok (rows.filter (commodityQuery n y)) := by
  cases hy : intTruthy y <;> simp only [get_commodity_data, hy] <;> rfl

theorem get_entity_data_ofRows (rows : List Row) (n : String) (y : Option Int) :
    get_entity_data (Store.ofRows rows) n y =
      if (rows.filter (entityQuery n y)).isEmpty then
        .error (.httpNotFound ("No se encontraron datos para la entidad: " ++ n))
      else .ok (rows.filter (entityQuery n y)) := by
  cases hy : intTruthy y <;> simp only [get_entity_data, hy] <;> rfl

theorem get_entity_type_data_ofRows (rows : List Row) (n : String) (y : Option Int) :
    get_entity_type_data (Store.ofRows rows) n y =
      if (rows.filter (entityTypeQuery n y)).isEmpty then
        .error (.httpNotFound ("No se encontraron datos para el tipo de entidad: " ++ n))
      else .ok (rows.filter (entityTypeQuery n y)) := by
  cases hy : intTruthy y <;> simp only [get_entity_type_data, hy] <;> rfl

theorem compare_countries_ofRows (rows : List Row) (L : List String) (y : Option Int) :
    compare_countries (Store.ofRows rows) L y =
      if (rows.filter (compareQuery L y)).isEmpty then
        .error (.httpNotFound "No se encontraron datos para los países especificados")
      else .ok (rows.filter (compareQuery L y)) := by
  cases hy : intTruthy y <;> simp only [compare_countries, hy] <;> rfl

theorem get_trends_ofRows (rows : List Row) (c : String) (sy ey : Option Int) :
    get_trends (Store.ofRows rows) c sy ey =
      if (sort_values_year (rows.filter (trendsQuery c sy ey))).isEmpty then
        .error (.httpNotFound ("No se encontraron datos para el país: " ++ c))
      else .ok (sort_values_year (rows.filter (trendsQuery c sy ey))) := by
  cases hs : intTruthy sy <;> cases he : intTruthy ey <;>
    simp only [get_trends, hs, he] <;> rfl

theorem get_column_data_ofRows (rows : List Row) (c : String) :
    get_column_data (Store.ofRows rows) c =
      if c ∈ fixedCols then
        .ok (c, uniqueFirst (colContents (Store.ofRows rows) c))
      else
        .error (.httpNotFound ("Columna no encontrada. Columnas disponibles: " ++
          "country, year, commodity, parent_entity, parent_type, value")) := by
  by_cases hc : c ∈ fixedCols <;>
    simp only [get_column_data, Store.ofRows, hc, not_true, not_false_iff,
      if_true, if_false] <;> try rfl

/-- The row list a filter-then-classify contract carries: the filtered rows,
whether or not the 404 branch was taken. -/
theorem resultRows_contract (l : List Row) (e : Err) :
    resultRows (if l.isEmpty then .error e else .ok l) = l := by
  cases l <;> simp [resultRows]

/-- The right scan of the partition loop always moves left (the fact that
makes the initial `j` an iteration bound for `partLoop`). -/
theorem scanLo_le (v : List Int) (t : List Nat) (vp : Int) (j : Nat) :
    scanLo v t vp j ≤ j - 1 := by
  induction j with
  | zero => exact Nat.le_refl _
  | succ j ih =>
    rw [scanLo]
    split
    · omega
    · omega

/-- Membership never enters `uniqueFirstAux` for an element already seen. -/
theorem not_mem_uniqueFirstAux [BEq α] [LawfulBEq α] (xs : List α) (seen : List α)
    (y : α) (hy : y ∈ seen) : y ∉ uniqueFirstAux seen xs := by
  induction xs generalizing seen with
  | nil => simp [uniqueFirstAux]
  | cons x xs ih =>
    simp only [uniqueFirstAux]
    split
    · exact ih seen hy
    · next hx =>
      intro hmem
      rcases List.mem_cons.mp hmem with h1 | h2
      · subst h1
        exact hx (by simpa using hy)
      · exact ih (x :: seen) (List.mem_cons_of_mem x hy) h2

/-- `uniqueFirstAux` returns a duplicate-free list. -/
theorem uniqueFirstAux_nodup [BEq α] [LawfulBEq α] (xs : List α) (seen : List α) :
    (uniqueFirstAux seen xs).Nodup := by
  induction xs generalizing seen with
  | nil => simp [uniqueFirstAux]
  | cons x xs ih =>
    simp only [uniqueFirstAux]
    split
    · exact ih seen
    · exact List.nodup_cons.mpr
        ⟨not_mem_uniqueFirstAux xs (x :: seen) x (List.mem_cons_self x seen), ih (x :: seen)⟩

/-- pandas `unique` returns a duplicate-free list. -/
theorem uniqueFirst_nodup [BEq α] [LawfulBEq α] (xs : List α) :
    (uniqueFirst xs).Nodup := uniqueFirstAux_nodup xs []

/-!
## The claims
-/

/-- C1: the spec requires `byCountry(n, year=0)` to apply the year filter for
real and return only the year-`0` rows.  The code's `if year:` treats the
explicitly supplied `0` as absent: on a store with a year-`0` row and a
year-`5` row of country `"X"`, `get_country_data "X" (some 0)` returns both
rows — including `xRow5`, whose year is not `0` — instead of only the
year-`0` row. -/
theorem c1_byCountry_year_zero_skipped :
    get_country_data zeroYearStore "X" (some 0) = .ok [xRow0, xRow5] ∧
    xRow5.year ≠ 0 := by decide

/-- C2: the spec requires every operation on the load-failure empty store to
return `NotFound`/empty/zero counts without faulting.  The fallback
`pd.DataFrame()` has no columns at all, so every endpoint that subscripts
`df` raises `KeyError` (an HTTP 500 fault), including `get_countries` and
`get_statistics_summary`, which the spec says must return an empty list and
zero counts. -/
theorem c2_empty_store_requests_fault :
    get_countries emptyStore = .error (.keyError "country") ∧
    get_statistics_summary emptyStore = .error (.keyError "country") ∧
    get_country_data emptyStore "USA" none = .error (.keyError "country") ∧
    get_co2_data emptyStore 2000 none = .error (.keyError "year") ∧
    get_commodity_data emptyStore "Oil" none = .error (.keyError "commodity") ∧
    get_entity_data emptyStore "E" none = .error (.keyError "parent_entity") ∧
    get_entity_type_data emptyStore "State" none = .error (.keyError "parent_type") ∧
    compare_countries emptyStore ["USA"] none = .error (.keyError "country") ∧
    get_trends emptyStore "USA" none none = .error (.keyError "country") := by decide

/-- C3 (counterexample): the claim says `columnValues` succeeds on each of
the six fixed names for *every* store; but on the load-failure empty store —
whose `pd.DataFrame()` fallback has no columns — even `"country"` fails,
with a 404 listing no available columns. -/
theorem c3_counterexample :
    get_column_data emptyStore "country" =
      .error (.httpNotFound "Columna no encontrada. Columnas disponibles: ") := by decide

/-- C3 (amended): on every successfully loaded store, `columnValues`
succeeds exactly on the six fixed column names and fails on every other name
with a 404 listing the six valid names; on the load-failure empty store
every name (the six included) fails with the 404 listing no columns. -/
theorem c3_column_values (rows : List Row) (c : String) :
    (c ∈ fixedCols →
      get_column_data (Store.ofRows rows) c =
        .ok (c, uniqueFirst (colContents (Store.ofRows rows) c))) ∧
    (c ∉ fixedCols →
      get_column_data (Store.ofRows rows) c =
        .error (.httpNotFound ("Columna no encontrada. Columnas disponibles: " ++
          "country, year, commodity, parent_entity, parent_type, value"))) := by
  constructor <;> intro hc <;> rw [get_column_data_ofRows] <;> simp [hc]

theorem c3_column_values_witness :
    get_column_data (Store.ofRows [usa2000]) "country" =
      .ok ("country", [.str "USA"]) ∧
    get_column_data (Store.ofRows [usa2000]) "bogus" =
      .error (.httpNotFound ("Columna no encontrada. Columnas disponibles: " ++
        "country, year, commodity, parent_entity, parent_type, value")) := by
  constructor
  · rw [(c3_column_values [usa2000] "country").1 (by decide)]; decide
  · exact (c3_column_values [usa2000] "bogus").2 (by decide)

/-- C4 (counterexample): the claim says every empty result is signalled with
a message identifying the filter values that produced no match; but
`compare_countries` answers with a fixed generic detail that does not
mention the queried country at all. -/
theorem c4_counterexample :
    compare_countries sampleStore ["France"] none =
      .error (.httpNotFound "No se encontraron datos para los países especificados") ∧
    strContains "No se encontraron datos para los países especificados" "France" = false := by
  decide

/-- C4 (amended): on every successfully loaded store, each query operation
signals `NotFound` exactly when its filtered sequence is empty and otherwise
returns the filtered sequence as-is (no implicit limit; `get_trends` returns
it through `sort_values('year')`).  The 404 details are the fixed per-endpoint
messages: `get_country_data`, `get_commodity_data`, `get_entity_data`,
`get_entity_type_data` and `get_trends` name only the primary filter value
(omitting the year parameters), `get_co2_data` names the year and the truthy
country, and `compare_countries` is generic and names no filter value. -/
theorem c4_result_contract (rows : List Row) :
    (∀ n y, get_country_data (Store.ofRows rows) n y =
      if (rows.filter (countryQuery n y)).isEmpty then
        .error (.httpNotFound ("No se encontraron datos para el país: " ++ n))
      else .ok (rows.filter (countryQuery n y))) ∧
    (∀ y c, get_co2_data (Store.ofRows rows) y c =
      if (rows.filter (co2Query y c)).isEmpty then
        .error (.httpNotFound ("No se encontraron datos para el año " ++ toString y ++
          (if strTruthy c then " y país " ++ c.getD "" else "")))
      else .ok (rows.filter (co2Query y c))) ∧
    (∀ n y, get_commodity_data (Store.ofRows rows) n y =
      if (rows.filter (commodityQuery n y)).isEmpty then
        .error (.httpNotFound ("No se encontraron datos para el commodity: " ++ n))
      else .ok (rows.filter (commodityQuery n y))) ∧
    (∀ n y, get_entity_data (Store.ofRows rows) n y =
      if (rows.filter (entityQuery n y)).isEmpty then
        .error (.httpNotFound ("No se encontraron datos para la entidad: " ++ n))
      else .ok (rows.filter (entityQuery n y))) ∧
    (∀ n y, get_entity_type_data (Store.ofRows rows) n y =
      if (rows.filter (entityTypeQuery n y)).isEmpty then
        .error (.httpNotFound ("No se encontraron datos para el tipo de entidad: " ++ n))
      else .ok (rows.filter (entityTypeQuery n y))) ∧
    (∀ L y, compare_countries (Store.ofRows rows) L y =
      if (rows.filter (compareQuery L y)).isEmpty then
        .error (.httpNotFound "No se encontraron datos para los países especificados")
      else .ok (rows.filter (compareQuery L y))) ∧
    (∀ c sy ey, get_trends (Store.ofRows rows) c sy ey =
      if (sort_values_year (rows.filter (trendsQuery c sy ey))).isEmpty then
        .error (.httpNotFound ("No se encontraron datos para el país: " ++ c))
      else .ok (sort_values_year (rows.filter (trendsQuery c sy ey)))) :=
  ⟨get_country_data_ofRows rows, get_co2_data_ofRows rows,
   get_commodity_data_ofRows rows, get_entity_data_ofRows rows,
   get_entity_type_data_ofRows rows, compare_countries_ofRows rows,
   get_trends_ofRows rows⟩

/-- The membership filter of `compare_countries` over a two-name list is the
disjunction of the two single-country filters. -/
theorem compareQuery_pair (a b : String) (r : Row) :
    compareQuery [a, b] none r = (countryQuery a none r || countryQuery b none r) := by
  show ([pyLower a, pyLower b].contains (pyLower r.country))
      = ((pyLower r.country == pyLower a) || (pyLower r.country == pyLower b))
  cases h1 : pyLower r.country == pyLower a <;>
    cases h2 : pyLower r.country == pyLower b <;>
    simp [List.contains, List.elem, h1, h2]

/-- C6: the result set of `compareCountries({A, B})` with no year filter is
the union of the result sets of `byCountry(A)` and `byCountry(B)` (a
`NotFound` answer carrying the empty result set). -/
theorem c6_compare_union (rows : List Row) (a b : String) (r : Row) :
    r ∈ resultRows (compare_countries (Store.ofRows rows) [a, b] none) ↔
      (r ∈ resultRows (get_country_data (Store.ofRows rows) a none) ∨
       r ∈ resultRows (get_country_data (Store.ofRows rows) b none)) := by
  rw [compare_countries_ofRows, get_country_data_ofRows, get_country_data_ofRows,
    resultRows_contract, resultRows_contract, resultRows_contract]
  simp only [List.mem_filter, compareQuery_pair, Bool.or_eq_true]
  tauto

/-- C7: the case-insensitive country match is reflexive — every store row is
in the result of `byCountry` queried with that row's own country string. -/
theorem c7_byCountry_reflexive (rows : List Row) (r : Row) (hr : r ∈ rows) :
    r ∈ resultRows (get_country_data (Store.ofRows rows) r.country none) := by
  rw [get_country_data_ofRows, resultRows_contract]
  exact List.mem_filter.mpr ⟨hr, by simp [countryQuery, intTruthy]⟩

theorem c7_witness :
    usa2000 ∈ resultRows
      (get_country_data (Store.ofRows [usa2000, chile2000]) usa2000.country none) :=
  c7_byCountry_reflexive [usa2000, chile2000] usa2000 (by decide)

/-- C8: `summary().totalRecords` is the store's row count and
`summary().totalCountries` is the number of distinct values returned by
`listCountries()` (whose result is duplicate-free, so its count is its
length). -/
theorem c8_summary_counts (rows : List Row) :
    ∃ sm cl, get_statistics_summary (Store.ofRows rows) = .ok sm ∧
      get_countries (Store.ofRows rows) = .ok cl ∧
      sm.total_records = rows.length ∧
      sm.total_countries = cl.length ∧ cl.Nodup := by
  refine ⟨_, _, get_statistics_summary_ofRows rows, get_countries_ofRows rows,
    rfl, rfl, uniqueFirst_nodup _⟩

/-- C9: the spec requires `trends(country, startYear?, endYear?)` to apply a
supplied bound of `0` for real.  The code's `if start_year:` / `if end_year:`
skip falsy bounds: with `endYear = 0` a year-`5` row survives (the claim
keeps only rows with year ≤ 0), and with `startYear = 0` a year-`-3` row
survives (the claim keeps only rows with year ≥ 0). -/
theorem c9_trends_zero_bounds_skipped :
    get_trends zeroYearStore "X" none (some 0) = .ok [xRow0, xRow5] ∧
    get_trends negYearStore "X" (some 0) none = .ok [xRowNeg, xRow5] ∧
    xRow5.year > 0 ∧ xRowNeg.year < 0 := by decide

/-- Two country lists with the same lower-cased name set have equal
membership tests. -/
theorem sameLoweredSet_contains (L1 L2 : List String)
    (h : sameLoweredSet L1 L2 = true) (x : String) :
    (L1.map pyLower).contains x = (L2.map pyLower).contains x := by
  rw [sameLoweredSet, Bool.and_eq_true, List.all_eq_true, List.all_eq_true] at h
  obtain ⟨h1, h2⟩ := h
  cases hc1 : (L1.map pyLower).contains x <;>
    cases hc2 : (L2.map pyLower).contains x <;> try rfl
  · have := h2 x (by simpa using hc2)
    rw [hc1] at this
    cases this
  · have := h1 x (by simpa using hc1)
    rw [hc2] at this
    cases this

/-- C10: `compare_countries` depends on its country list only through the
set of lower-cased names — permuting the list, duplicating entries or
changing letter case leaves the response (rows and error alike) unchanged —
and the returned rows are always a sublist of the store (original store
order). -/
theorem c10_compare_invariance (rows : List Row) (y : Option Int)
    (L1 L2 : List String) (h : sameLoweredSet L1 L2 = true) :
    compare_countries (Store.ofRows rows) L1 y =
      compare_countries (Store.ofRows rows) L2 y ∧
    (resultRows (compare_countries (Store.ofRows rows) L1 y)).Sublist rows := by
  have hq : compareQuery L1 y = compareQuery L2 y := by
    funext r
    cases hy : intTruthy y <;>
      simp only [compareQuery, hy, if_true, if_false, Bool.false_eq_true,
        sameLoweredSet_contains L1 L2 h]
  constructor
  · rw [compare_countries_ofRows, compare_countries_ofRows, hq]
  · rw [compare_countries_ofRows, resultRows_contract]
    exact List.filter_sublist rows

theorem c10_witness :
    compare_countries (Store.ofRows [usa2000, usa2001, chile2000]) ["usa", "CHILE"] none =
      compare_countries (Store.ofRows [usa2000, usa2001, chile2000]) ["Chile", "USA", "usa"] none ∧
    (resultRows (compare_countries (Store.ofRows [usa2000, usa2001, chile2000])
      ["usa", "CHILE"] none)).Sublist [usa2000, usa2001, chile2000] :=
  c10_compare_invariance [usa2000, usa2001, chile2000] none
    ["usa", "CHILE"] ["Chile", "USA", "usa"] (by decide)

/-!
## The insertion-sort regime of `aquicksort`

On segments never partitioned (at most 16 positions) `aquicksort` is exactly
its final insertion-sort pass, and that pass — whose shift loop compares
keys strictly (`vp < v[*pk]`) — produces the positions in strictly
increasing `(key, position)` lexicographic order: sorted by key and stable.
-/

theorem getD_append_len (p : List Nat) (x : Nat) (rest : List Nat) :
    (p ++ x :: rest).getD p.length 0 = x := by
  induction p with
  | nil => rfl
  | cons a p ih => simpa using ih

theorem set_append_add (p : List Nat) (l : List Nat) (k : Nat) (y : Nat) :
    (p ++ l).set (p.length + k) y = p ++ l.set k y := by
  induction p with
  | nil => simp
  | cons a p ih => simp [List.cons_append, Nat.succ_add, ih]

/-- `insVal` inserts its element: the result is a permutation of consing
it. -/
theorem insVal_perm (v : List Int) (x : Nat) (l : List Nat) :
    (insVal v x l).Perm (x :: l) := by
  induction l with
  | nil => exact List.Perm.refl _
  | cons y ys ih =>
    rw [insVal]
    split
    · exact (ih.cons y).trans (List.Perm.swap x y ys)
    · exact List.Perm.refl _

/-- `insVal` preserves lexicographic sortedness when the inserted position
is larger than every present position (the fresh position of an insertion
pass). -/
theorem insVal_sorted (v : List Int) (x : Nat) (l : List Nat)
    (hs : l.Pairwise (yearLexLt v)) (hx : ∀ y ∈ l, y < x) :
    (insVal v x l).Pairwise (yearLexLt v) := by
  induction l with
  | nil => simp [insVal]
  | cons y ys ih =>
    rw [insVal]
    rcases List.pairwise_cons.mp hs with ⟨hy, hys⟩
    split
    · next hle =>
      refine List.pairwise_cons.mpr
        ⟨?_, ih hys (fun z hz => hx z (List.mem_cons_of_mem y hz))⟩
      intro z hz
      rcases List.mem_cons.mp ((insVal_perm v x ys).mem_iff.mp hz) with rfl | hz2
      · rcases lt_or_eq_of_le hle with h | h
        · exact Or.inl h
        · exact Or.inr ⟨h, hx y (List.mem_cons_self y ys)⟩
      · exact hy z hz2
    · next hgt =>
      rw [not_le] at hgt
      refine List.pairwise_cons.mpr ⟨?_, hs⟩
      intro z hz
      rcases List.mem_cons.mp hz with rfl | hz2
      · exact Or.inl hgt
      · rcases hy z hz2 with h | ⟨h, _⟩
        · exact Or.inl (lt_trans hgt h)
        · exact Or.inl (h ▸ hgt)

/-- A strictly larger final key commutes with `insVal`. -/
theorem insVal_append_gt (v : List Int) (x a : Nat) (p : List Nat)
    (ha : v.getD x 0 < v.getD a 0) :
    insVal v x (p ++ [a]) = insVal v x p ++ [a] := by
  induction p with
  | nil =>
    rw [List.nil_append, insVal, insVal, if_neg (not_le_of_lt ha)]
    rfl
  | cons y p ih =>
    rw [List.cons_append, insVal, insVal]
    split
    · rw [ih, List.cons_append]
    · rfl

/-- When every present key is at most the inserted key, `insVal` appends. -/
theorem insVal_all_le (v : List Int) (x : Nat) (l : List Nat)
    (h : ∀ y ∈ l, v.getD y 0 ≤ v.getD x 0) :
    insVal v x l = l ++ [x] := by
  induction l with
  | nil => rfl
  | cons y ys ih =>
    rw [insVal, if_pos (h y (List.mem_cons_self y ys)),
      ih (fun z hz => h z (List.mem_cons_of_mem y hz))]
    rfl

/-- One pass of the C insertion sort — the shift loop followed by the final
write of the saved element — is `insVal` into the sorted prefix, leaving the
suffix untouched. -/
theorem insShift_spec (v : List Int) (vi : Nat) (pre : List Nat) :
    pre.Pairwise (yearLexLt v) →
    ∀ (junk : Nat) (rest : List Nat),
      ((insShift v 0 (v.getD vi 0) (pre ++ junk :: rest) pre.length).1.set
        (insShift v 0 (v.getD vi 0) (pre ++ junk :: rest) pre.length).2 vi)
        = insVal v vi pre ++ rest := by
  induction pre using List.reverseRecOn with
  | nil =>
    intro _ junk rest
    simp [insShift, insVal]
  | append_singleton p a ih =>
    intro hs junk rest
    have hsp : p.Pairwise (yearLexLt v) :=
      hs.sublist (List.sublist_append_left p [a])
    have hlen : (p ++ [a]).length = p.length + 1 := by simp
    have hassoc : (p ++ [a]) ++ junk :: rest = p ++ a :: junk :: rest := by simp
    rw [hlen, hassoc]
    rw [insShift]
    have hget : (p ++ a :: junk :: rest).getD p.length 0 = a := getD_append_len p a _
    rw [hget]
    by_cases hva : v.getD vi 0 < v.getD a 0
    · rw [if_pos ⟨Nat.succ_pos _, hva⟩]
      have hset : (p ++ a :: junk :: rest).set (p.length + 1) a
          = p ++ a :: a :: rest := by
        rw [set_append_add p (a :: junk :: rest) 1 a]; rfl
      rw [hset, ih hsp a (a :: rest), insVal_append_gt v vi a p hva]
      simp
    · rw [if_neg (by rintro ⟨-, h⟩; exact hva h)]
      simp only []
      have hset : (p ++ a :: junk :: rest).set (p.length + 1) vi
          = p ++ a :: vi :: rest := by
        rw [set_append_add p (a :: junk :: rest) 1 vi]; rfl
      rw [hset, insVal_all_le v vi (p ++ [a]) ?_]
      · simp
      · intro y hy
        rcases List.mem_append.mp hy with hyp | hya
        · rcases List.pairwise_append.mp hs with ⟨-, -, hcross⟩
          rcases hcross y hyp a (List.mem_singleton_self a) with h | ⟨h, -⟩
          · exact le_trans (le_of_lt h) (not_lt.mp hva)
          · exact h ▸ not_lt.mp hva
        · rw [List.mem_singleton.mp hya]
          exact not_lt.mp hva

/-- The insertion-sort pass over positions `m, …, m + k - 1`, entered with a
lexicographically sorted permutation of the first `m` positions in place,
returns a lexicographically sorted permutation of the first `m + k`
positions. -/
theorem insLoop_spec (v : List Int) :
    ∀ (k m : Nat) (pre : List Nat),
      pre.Perm (List.range m) → pre.Pairwise (yearLexLt v) →
      (insLoop v 0 (pre ++ List.range' m k) m k).Perm (List.range (m + k)) ∧
      (insLoop v 0 (pre ++ List.range' m k) m k).Pairwise (yearLexLt v) := by
  intro k
  induction k with
  | zero =>
    intro m pre hp hs
    simpa [insLoop] using ⟨hp, hs⟩
  | succ k ih =>
    intro m pre hp hs
    have hlen : pre.length = m := by simpa using hp.length_eq
    have hrange : List.range' m (k + 1) = m :: List.range' (m + 1) k := rfl
    rw [hrange]
    have hget : (pre ++ m :: List.range' (m + 1) k).getD m 0 = m := by
      have h0 := getD_append_len pre m (List.range' (m + 1) k)
      rwa [hlen] at h0
    simp only [insLoop, hget]
    have hstep := insShift_spec v m pre hs m (List.range' (m + 1) k)
    rw [hlen] at hstep
    rw [hstep]
    have hp' : (insVal v m pre).Perm (List.range (m + 1)) := by
      refine (insVal_perm v m pre).trans ?_
      rw [List.range_succ]
      exact (hp.cons m).trans (List.perm_append_singleton m (List.range m)).symm
    have hs' : (insVal v m pre).Pairwise (yearLexLt v) :=
      insVal_sorted v m pre hs
        (fun y hy => List.mem_range.mp (hp.mem_iff.mp hy))
    have := ih (m + 1) (insVal v m pre) hp' hs'
    rwa [show m + 1 + k = m + (k + 1) by omega] at this

/-- numpy's `argsort(kind='quicksort')` on at most sixteen keys is its pure
insertion sort: the returned positions are a permutation of `range n` in
strictly increasing `(key, position)` order — sorted by key and stable. -/
theorem argsortQuick_small (v : List Int) (hle : v.length ≤ 16) :
    (argsortQuick v).Perm (List.range v.length) ∧
    (argsortQuick v).Pairwise (yearLexLt v) := by
  rcases hn : v.length with _ | n
  · constructor <;> simp [argsortQuick, hn]
  · have hn15 : n ≤ 15 := by omega
    have h0 : ¬ v.length = 0 := by omega
    rw [argsortQuick, if_neg h0, hn]
    have hguard : ¬ (n + 1 - 1 - 0 > 15) := by omega
    rw [introMain, if_neg hguard]
    dsimp only
    rw [insSortSeg]
    norm_num
    have hdecomp : List.range (n + 1) = [0] ++ List.range' 1 n := by
      rw [List.range_eq_range']
      rfl
    have h2 := insLoop_spec v n 1 [0] (by decide) (by simp)
    rw [← hdecomp] at h2
    rwa [show (1 + n) = n + 1 by omega] at h2

set_option maxRecDepth 4096 in
/-- C5 (counterexample): the claim asserts that `trends` output is stable on
equal years for every store.  On seventeen equal-year rows of one country —
one element past the insertion-sort threshold, forcing a quicksort partition
— the sort returns position 14 (at output index 1) before position 13 (at
output index 2), although both rows have the same year and the store lists
position 13 first: stability fails. -/
theorem c5_counterexample :
    get_trends tieStore "X" none none = .ok (tiePerm.map tieRow) ∧
    (tiePerm.map tieRow).getD 1 default = tieRow 14 ∧
    (tiePerm.map tieRow).getD 2 default = tieRow 13 ∧
    (tieRow 14).year = (tieRow 13).year ∧
    tieStore.rows.getD 13 default = tieRow 13 ∧
    tieStore.rows.getD 14 default = tieRow 14 := by decide

/-- C5 (amended): `trends` returns the filter's rows — which keep store
order, being a sublist of the store — rearranged by numpy's
`argsort(kind='quicksort')` on the year column.  Whenever the filtered
result has at most sixteen rows the algorithm is its pure insertion sort,
and the output is sorted by year and stable: the returned positions are a
permutation of the filtered positions in strictly increasing
`(year, position)` lexicographic order.  For larger results the quicksort
partitions and stability fails (`tieStore` above); its sortedness is
numpy's contract and is not re-verified here. -/
theorem c5_trends_sorted_stable_small (rows : List Row) (c : String)
    (sy ey : Option Int)
    (hlen : (rows.filter (trendsQuery c sy ey)).length ≤ 16)
    (hne : rows.filter (trendsQuery c sy ey) ≠ []) :
    (rows.filter (trendsQuery c sy ey)).Sublist rows ∧
    ∃ p : List Nat,
      p.Perm (List.range (rows.filter (trendsQuery c sy ey)).length) ∧
      p.Pairwise (yearLexLt ((rows.filter (trendsQuery c sy ey)).map (·.year))) ∧
      get_trends (Store.ofRows rows) c sy ey =
        .ok (p.map fun i => (rows.filter (trendsQuery c sy ey)).getD i default) := by
  set l := rows.filter (trendsQuery c sy ey) with hl
  have hvlen : (l.map (·.year)).length = l.length := by simp
  obtain ⟨hperm, hsorted⟩ :=
    argsortQuick_small (l.map (·.year)) (by rw [hvlen]; exact hlen)
  refine ⟨List.filter_sublist rows, argsortQuick (l.map (·.year)), ?_, hsorted, ?_⟩
  · rwa [hvlen] at hperm
  · rw [get_trends_ofRows]
    have hlen2 : (sort_values_year l).length = l.length := by
      rw [sort_values_year, List.length_map, hperm.length_eq,
        List.length_range, hvlen]
    have hnonempty : ¬ ((sort_values_year l).isEmpty = true) := by
      intro hemp
      apply hne
      have hzero : (sort_values_year l).length = 0 := by
        rw [List.isEmpty_iff] at hemp
        rw [hemp]
        rfl
      rw [hlen2] at hzero
      exact List.length_eq_zero.mp hzero
    rw [if_neg hnonempty]
    rfl

theorem c5_trends_sorted_stable_small_witness :
    ([usa2000, usa2001, chile2000].filter (trendsQuery "USA" none none)).Sublist
      [usa2000, usa2001, chile2000] ∧
    ∃ p : List Nat,
      p.Perm (List.range
        ([usa2000, usa2001, chile2000].filter (trendsQuery "USA" none none)).length) ∧
      p.Pairwise (yearLexLt
        (([usa2000, usa2001, chile2000].filter (trendsQuery "USA" none none)).map (·.year))) ∧
      get_trends (Store.ofRows [usa2000, usa2001, chile2000]) "USA" none none =
        .ok (p.map fun i =>
          ([usa2000, usa2001, chile2000].filter (trendsQuery "USA" none none)).getD i default) :=
  c5_trends_sorted_stable_small [usa2000, usa2001, chile2000] "USA" none none
    (by decide) (by decide)
